import Mathlib

/-!
Verification development for the IBG 2023 Hail workshop notebooks.

The repository consists of Jupyter notebooks that chain calls into the Hail
genomics library.  The glue logic the notebooks themselves contribute —
quality-control row filters, gene annotation, the per-gene burden
aggregation, the weight annotations, the relatedness lookup `get_rel`, and
the SKAT fault post-processing — is embedded shallowly below.  Genotype
calls are modelled as `Option Nat` (the number of alternate alleles of a
diploid call, `none` for a missing call) and all numeric fields as `ℚ`.
The stochastic term `hl.rand_norm(0, 0.005)` in `get_rel` is modelled as an
explicit `noise` parameter.
-/

namespace IBGHail

/-- A variant row of the rare-variant matrix table.  `GT` holds one genotype
per sample column: `some n` is a diploid call with `n` alternate alleles,
`none` is a missing call.  `gene_name`, `weight1`, `weight2` and `weight`
are row annotations added by the notebook cells; before annotation they hold
their construction-time defaults. -/
structure Row where
  locus : Nat
  filters : List String
  gene_name : Option String
  consequence : String
  cadd_phred : ℚ
  weight1 : ℚ
  weight2 : ℚ
  weight : ℚ
  GT : List (Option Nat)
deriving DecidableEq

/-- A sample column: sample id `s`, the two phenotypes and the PCA scores
annotated onto the columns by the notebook. -/
structure Col where
  s : String
  pheno1 : ℚ
  pheno2 : ℚ
  pca : List ℚ
deriving DecidableEq

/-- A Hail matrix table: variant rows (which carry the genotype entries,
aligned positionally with the columns) and sample columns. -/
structure MatrixTable where
  rows : List Row
  cols : List Col
deriving DecidableEq

/-- `mt.filter_rows(p)`: keep exactly the rows satisfying the predicate;
columns are untouched. -/
def filter_rows (mt : MatrixTable) (p : Row → Bool) : MatrixTable :=
  { mt with rows := mt.rows.filter p }

/-- `mt.annotate_cols(...)`: recompute the column annotations; rows (and with
them the genotype entries) are untouched. -/
def annotate_cols (mt : MatrixTable) (f : Col → Col) : MatrixTable :=
  { mt with cols := mt.cols.map f }

/-- The non-missing genotype calls of a row (`hl.agg` aggregators skip
missing values). -/
def calledGT (r : Row) : List Nat :=
  r.GT.filterMap id

/-- `hl.agg.call_stats(mt.GT, mt.alleles).AF[1]`: the alternate-allele
frequency of a biallelic variant — alternate alleles carried over all
non-missing diploid calls, divided by the total allele count. -/
def callStatsAF1 (r : Row) : ℚ :=
  ((calledGT r).sum : ℚ) / (2 * ((calledGT r).length : ℚ))

/-- `mt = mt.filter_rows(hl.len(mt.filters) == 0)` — drop non-PASS variants. -/
def removeNonPass (mt : MatrixTable) : MatrixTable :=
  filter_rows mt (fun r => r.filters.length == 0)

/-- `mt = mt.filter_rows(hl.agg.call_stats(mt.GT, mt.alleles).AF[1] < 0.01)`
— drop common variants. -/
def removeCommon (mt : MatrixTable) : MatrixTable :=
  filter_rows mt (fun r => decide (callStatsAF1 r < 1 / 100))

/-- `mt = mt.filter_rows(hl.agg.all(mt.GT.is_hom_ref()), keep=False)` — drop
variants all of whose non-missing calls are homozygous reference. -/
def removeAllHomRef (mt : MatrixTable) : MatrixTable :=
  filter_rows mt (fun r => !((calledGT r).all (fun g => g == 0)))

/-- The three quality-control filters of the rare-variant notebook, in the
order the cells run them. -/
def qcChain (mt : MatrixTable) : MatrixTable :=
  removeAllHomRef (removeCommon (removeNonPass mt))

/-- One record of the GENCODE gene table `resources/genes.ht`, keyed by a
locus interval. -/
structure GeneInterval where
  startLocus : Nat
  endLocus : Nat
  gene_name : String
deriving DecidableEq

/-- `genes[mt.locus].gene_name`: interval-keyed lookup of the gene containing
a locus (missing when no interval contains it). -/
def genesLookup (genes : List GeneInterval) (locus : Nat) : Option String :=
  (genes.find? (fun g => decide (g.startLocus ≤ locus) && decide (locus < g.endLocus))).map
    (fun g => g.gene_name)

/-- `mt = mt.annotate_rows(gene_name = genes[mt.locus].gene_name)`. -/
def annotateGeneNames (genes : List GeneInterval) (mt : MatrixTable) : MatrixTable :=
  { mt with rows := mt.rows.map (fun r => { r with gene_name := genesLookup genes r.locus }) }

/-- The rare-variant pipeline up to the point where `burden_mt` and `skat_mt`
are built: the three QC filters followed by the gene-name annotation. -/
def rareVariantPipeline (genes : List GeneInterval) (mt : MatrixTable) : MatrixTable :=
  annotateGeneNames genes (qcChain mt)

/-- The weight annotations of the weighted-burden solution cell:
`weight1` by case analysis on `vep.most_severe_consequence`, and
`weight2 = mt.cadd.phred`. -/
def annotateWeights (mt : MatrixTable) : MatrixTable :=
  { mt with rows := mt.rows.map (fun r =>
      { r with
        weight1 :=
          if r.consequence == "synonymous_variant" then 2
          else if r.consequence == "intron_variant" then 3
          else if r.consequence == "missense_variant" then 5
          else 1,
        weight2 := r.cadd_phred }) }

/-- The genotype entry of row `r` at sample index `i`
(`mt.GT.n_alt_alleles()`, missing when the call is missing or the index is
out of range). -/
def nAltAt (r : Row) (i : Nat) : Option Nat :=
  (r.GT.get? i).join

/-- The group keys produced by `mt.group_rows_by(mt.gene_name)`, one per
distinct `gene_name` value. -/
def geneKeys (mt : MatrixTable) : List (Option String) :=
  (mt.rows.map (fun r => r.gene_name)).dedup

/-- The rows of `mt` falling in gene group `g`. -/
def rowsOfGene (mt : MatrixTable) (g : Option String) : List Row :=
  mt.rows.filter (fun r => r.gene_name == g)

/-- `hl.agg.count_where(p)` evaluated over a group of rows at sample index
`i`: the number of rows whose (missingness-aware) predicate evaluates to a
present `true`.  Missing predicate values are skipped, as Hail aggregators
do. -/
def countWhere (pred : Row → Nat → Option Bool) (group : List Row) (i : Nat) : Nat :=
  (group.filter (fun r => pred r i == some true)).length

/-- The aggregation predicate of the plain burden cell:
`mt.GT.n_alt_alleles() > 0` (missing when the call is missing). -/
def burdenPred (r : Row) (i : Nat) : Option Bool :=
  (nAltAt r i).map (fun n => decide (0 < n))

/-- The aggregation predicate of the weighted-burden cell:
`mt.weight2 * mt.GT.n_alt_alleles() > 0` (missing when the call is
missing). -/
def weightedPred (r : Row) (i : Nat) : Option Bool :=
  (nAltAt r i).map (fun n => decide (0 < r.weight2 * (n : ℚ)))

/-- A row of the gene-keyed burden matrix: the group key and the
`n_variants` entry for each sample column. -/
structure BurdenRow where
  gene_name : Option String
  n_variants : List Nat
deriving DecidableEq

/-- `mt.group_rows_by(mt.gene_name).aggregate(n_variants = hl.agg.count_where(p))`
for an arbitrary missingness-aware entry predicate `p`. -/
def groupRowsByGene (pred : Row → Nat → Option Bool) (mt : MatrixTable) : List BurdenRow :=
  (geneKeys mt).map (fun g =>
    { gene_name := g
      n_variants := (List.range mt.cols.length).map (fun i => countWhere pred (rowsOfGene mt g) i) })

/-- `burden_mt`: group by gene, aggregate
`n_variants = hl.agg.count_where(mt.GT.n_alt_alleles() > 0)`, then
`filter_rows(hl.agg.sum(burden_mt.n_variants) > 0)`. -/
def burden_mt (mt : MatrixTable) : List BurdenRow :=
  (groupRowsByGene burdenPred mt).filter (fun br => decide (0 < br.n_variants.sum))

/-- The weighted-burden matrix `xx` of the solution cell: annotate the
weights, group by gene, aggregate
`n_variants = hl.agg.count_where(mt.weight2 * mt.GT.n_alt_alleles() > 0)`,
then keep genes with a positive entry sum. -/
def weighted_mt (mt : MatrixTable) : List BurdenRow :=
  (groupRowsByGene weightedPred (annotateWeights mt)).filter
    (fun br => decide (0 < br.n_variants.sum))

/-- Modelled from the spec: the per-gene statistic the spec's glossary
describes — the sum over the gene's variants of the sample's
alternate-allele count (the refinement reading of the burden claim, to be
compared with the `count_where` aggregate the code computes). -/
def specBurdenSum (mt : MatrixTable) (g : Option String) (i : Nat) : Nat :=
  ((rowsOfGene mt g).map (fun r => (nAltAt r i).getD 0)).sum

/-- `hl.dbeta(x, a, b)`: the Beta(a, b) probability density function, for
natural-number shape parameters, expressed with factorials:
`x^(a-1) * (1-x)^(b-1) / B(a, b)` where
`B(a, b) = (a-1)! * (b-1)! / (a+b-1)!`. -/
def dbeta (x : ℚ) (a b : Nat) : ℚ :=
  x ^ (a - 1) * (1 - x) ^ (b - 1) *
    (((a + b - 1).factorial : ℚ) / (((a - 1).factorial : ℚ) * ((b - 1).factorial : ℚ)))

/-- The Beta(a, b) cumulative distribution function (regularized incomplete
beta function) for natural-number shape parameters, via the binomial-sum
identity `I_x(a, b) = Σ_(j = a)^(a+b-1) C(a+b-1, j) x^j (1-x)^(a+b-1-j)`. -/
def pbeta (x : ℚ) (a b : Nat) : ℚ :=
  (Finset.Icc a (a + b - 1)).sum
    (fun j => ((a + b - 1).choose j : ℚ) * x ^ j * (1 - x) ^ (a + b - 1 - j))

/-- `skat_mt = skat_mt.annotate_rows(weight = hl.dbeta(skat_mt.variant_qc.AF[1], 1, 25))`.
`hl.variant_qc` recomputes the alternate-allele frequency from the calls, so
`variant_qc.AF[1]` is the call-stats allele frequency `callStatsAF1`. -/
def annotateSkatWeight (mt : MatrixTable) : MatrixTable :=
  { mt with rows := mt.rows.map (fun r => { r with weight := dbeta (callStatsAF1 r) 1 25 }) }

/-- The matrix table handed to `hl.skat`: the (weight-annotated, gene-keyed)
rare-variant matrix table with the per-variant SKAT weight annotated. -/
def skat_mt (mt : MatrixTable) : MatrixTable :=
  annotateSkatWeight mt

/-- One record of the table `hl.skat` returns: the group id, the p-value and
the integer fault code. -/
structure SkatResult where
  id : Option String
  p_value : ℚ
  fault : Int
deriving DecidableEq

/-- `ht.annotate(p_value = hl.if_else(ht.fault == 0, ht.p_value, 1))`
applied to one SKAT result record. -/
def adjustSkatPValue (r : SkatResult) : SkatResult :=
  { r with p_value := if r.fault = 0 then r.p_value else 1 }

/-- The notebook's post-processing of the whole SKAT results table before
plotting. -/
def adjustSkatResults (ht : List SkatResult) : List SkatResult :=
  ht.map adjustSkatPValue

/-- The relatedness graph `mt1.index_globals().relatedness` produced by
`hl.simulate_random_mating`: a dictionary from sample index to a dictionary
from (smaller) sample index to the true kinship. -/
def RelGraph : Type :=
  List (Nat × List (Nat × ℚ))

/-- The deterministic part of the notebook's `get_rel` (the `hl.case`
expression, before the jitter term is added): 0.5 on the diagonal, otherwise
`rel.get(s1).get(s2)` with the larger index first, defaulting to 0.0 via
`hl.coalesce`. -/
def getRelDet (rel : RelGraph) (s1 s2 : Nat) : ℚ :=
  if s1 = s2 then 1 / 2
  else if s2 < s1 then ((rel.lookup s1).bind (fun d => d.lookup s2)).getD 0
  else ((rel.lookup s2).bind (fun d => d.lookup s1)).getD 0

/-- `get_rel(s1, s2)`: the deterministic case expression plus
`hl.rand_norm(0, 0.005)`, whose sampled value is modelled as the explicit
`noise` parameter. -/
def getRel (rel : RelGraph) (s1 s2 : Nat) (noise : ℚ) : ℚ :=
  getRelDet rel s1 s2 + noise

/-- A keyed table, as far as `key_by` / `key_cols_by` is concerned: a key
designation and the records. -/
structure KTable where
  key : String
  recs : List (Nat × ℚ)
deriving DecidableEq

/-- `t.key_by(k)`: re-key a table; the records themselves are untouched. -/
def key_by (t : KTable) (k : String) : KTable :=
  { key := k, recs := t.recs }

/-- The kind of pre-built input file a notebook load consumes. -/
inductive InputKind where
  | genotypeMatrix
  | sampleData
  | geneIntervals
  | phenotypes
deriving DecidableEq

/-- One file-reading operation of the notebooks: the library loader called,
the path passed, and the kind of pre-built file it loads. -/
structure InputOp where
  loader : String
  path : String
  kind : InputKind
deriving DecidableEq

/-- Every file-reading operation appearing in the notebooks, in order of
appearance. -/
def notebookInputOps : List InputOp :=
  [ { loader := "hl.read_matrix_table", path := "resources/hgdp.mt", kind := .genotypeMatrix },
    { loader := "hl.import_table", path := "resources/HGDP_sample_data.tsv", kind := .sampleData },
    { loader := "hl.read_matrix_table", path := "resources/hgdp-tgp-rare-variants.mt",
      kind := .genotypeMatrix },
    { loader := "hl.read_table", path := "resources/genes.ht", kind := .geneIntervals },
    { loader := "hl.read_table", path := "resources/rare-variant-phenotypes.ht",
      kind := .phenotypes } ]

/-- One assignment statement of a notebook code cell: the name bound (empty
for a bare expression statement) and the right-hand side. -/
structure Stmt where
  target : String
  rhs : String
deriving DecidableEq

/-- The code cells (as statement lists) the teaching notebook gives for
Notebook 02, Exercise 1. -/
def notebook02Exercise1Cells : List (List Stmt) :=
  [ [ { target := "xx", rhs := "burden_mt" },
      { target := "", rhs := "xx.aggregate_entries(hl.agg.fraction(xx.n_variants == 0))" } ],
    [ { target := "xx", rhs := "burden_mt" },
      { target := "xx", rhs := "xx.annotate_rows(frac_zero = hl.agg.fraction(xx.n_variants == 0))" },
      { target := "", rhs := "xx.aggregate_rows(hl.agg.hist(xx.frac_zero, 0, 1, 20))" } ],
    [ { target := "xx", rhs := "burden_mt" },
      { target := "xx",
        rhs := "xx.annotate_rows(n_zero_variants = hl.agg.count_where(xx.n_variants == 0))" },
      { target := "", rhs := "xx.aggregate_rows(hl.agg.counter(xx.n_zero_variants))" } ] ]

/-- The code cells the teaching notebook gives for Notebook 02, Exercise 2,
ending with the weighted burden test cell. -/
def notebook02Exercise2Cells : List (List Stmt) :=
  [ [ { target := "", rhs := "mt.describe(widget=True)" } ],
    [ { target := "", rhs := "mt.splice_ai.summarize()" } ],
    [ { target := "", rhs := "mt.cadd.summarize()" } ],
    [ { target := "", rhs := "mt.aggregate_rows(hl.agg.counter(mt.vep.most_severe_consequence))" } ],
    [ { target := "mt",
        rhs := "mt.annotate_rows(weight1 = hl.case().when(mt.vep.most_severe_consequence == synonymous_variant, 2).when(mt.vep.most_severe_consequence == intron_variant, 3).when(mt.vep.most_severe_consequence == missense_variant, 5).default(1), weight2 = mt.cadd.phred)" },
      { target := "mt", rhs := "mt.annotate_cols(pca = pca_scores[mt.s])" },
      { target := "xx",
        rhs := "mt.group_rows_by(mt.gene_name).aggregate(n_variants = hl.agg.count_where(mt.weight2 * mt.GT.n_alt_alleles() > 0))" },
      { target := "xx", rhs := "xx.filter_rows(hl.agg.sum(xx.n_variants) > 0)" },
      { target := "weighted_burden",
        rhs := "hl.linear_regression_rows(y = xx.pheno1, x = xx.n_variants, covariates = [1.0, xx.pca.scores[0], xx.pca.scores[1], xx.pca.scores[2]])" },
      { target := "ht", rhs := "weighted_burden" },
      { target := "",
        rhs := "ggplot(ht) + geom_col(aes(x = ht.gene_name, y = -hl.log(ht.p_value, base=10)))" } ] ]

/-- The code cells of the solutions guide answering Notebook 02, Exercise 1
(cells 07d2cd6a, 211a4f21, 628489be). -/
def solutionsExercise1Cells : List (List Stmt) :=
  [ [ { target := "xx", rhs := "burden_mt" },
      { target := "", rhs := "xx.aggregate_entries(hl.agg.fraction(xx.n_variants == 0))" } ],
    [ { target := "xx", rhs := "burden_mt" },
      { target := "xx", rhs := "xx.annotate_rows(frac_zero = hl.agg.fraction(xx.n_variants == 0))" },
      { target := "", rhs := "xx.aggregate_rows(hl.agg.hist(xx.frac_zero, 0, 1, 20))" } ],
    [ { target := "xx", rhs := "burden_mt" },
      { target := "xx",
        rhs := "xx.annotate_rows(n_zero_variants = hl.agg.count_where(xx.n_variants == 0))" },
      { target := "", rhs := "xx.aggregate_rows(hl.agg.counter(xx.n_zero_variants))" } ] ]

/-- The code cells of the solutions guide answering Notebook 02, Exercise 2
(cells b6e3a25e through 553b6440, ending with the weighted burden test
cell). -/
def solutionsExercise2Cells : List (List Stmt) :=
  [ [ { target := "", rhs := "mt.describe(widget=True)" } ],
    [ { target := "", rhs := "mt.splice_ai.summarize()" } ],
    [ { target := "", rhs := "mt.cadd.summarize()" } ],
    [ { target := "", rhs := "mt.aggregate_rows(hl.agg.counter(mt.vep.most_severe_consequence))" } ],
    [ { target := "mt",
        rhs := "mt.annotate_rows(weight1 = hl.case().when(mt.vep.most_severe_consequence == synonymous_variant, 2).when(mt.vep.most_severe_consequence == intron_variant, 3).when(mt.vep.most_severe_consequence == missense_variant, 5).default(1), weight2 = mt.cadd.phred)" },
      { target := "mt", rhs := "mt.annotate_cols(pca = pca_scores[mt.s])" },
      { target := "xx",
        rhs := "mt.group_rows_by(mt.gene_name).aggregate(n_variants = hl.agg.count_where(mt.weight2 * mt.GT.n_alt_alleles() > 0))" },
      { target := "xx", rhs := "xx.filter_rows(hl.agg.sum(xx.n_variants) > 0)" },
      { target := "weighted_burden",
        rhs := "hl.linear_regression_rows(y = xx.pheno1, x = xx.n_variants, covariates = [1.0, xx.pca.scores[0], xx.pca.scores[1], xx.pca.scores[2]])" },
      { target := "ht", rhs := "weighted_burden" },
      { target := "",
        rhs := "ggplot(ht) + geom_col(aes(x = ht.gene_name, y = -hl.log(ht.p_value, base=10)))" } ] ]

/-- A default sample column used to build concrete test tables. -/
def colD : Col :=
  { s := "sample", pheno1 := 0, pheno2 := 0, pca := [] }

/-- A concrete PASS rare variant: one homozygous-alternate call among 101
samples, so its allele frequency 2/202 = 1/101 is below 1%. -/
def rowHomAlt : Row :=
  { locus := 5, filters := [], gene_name := none, consequence := "missense_variant",
    cadd_phred := 10, weight1 := 0, weight2 := 0, weight := 0,
    GT := some 2 :: List.replicate 100 (some 0) }

/-- A concrete 101-sample, one-variant matrix table that survives the QC
chain. -/
def mtHomAlt : MatrixTable :=
  { rows := [rowHomAlt], cols := List.replicate 101 colD }

/-- A one-gene interval table whose interval contains `rowHomAlt.locus`. -/
def genesOne : List GeneInterval :=
  [ { startLocus := 0, endLocus := 10, gene_name := "GENE1" } ]

/-- A concrete relatedness graph with a single entry, kinship 1/4 for the
pair (1, 0). -/
def relOne : RelGraph :=
  [ (1, [ (0, 1 / 4) ]) ]

/-- A one-sample gene-annotated variant row whose single call is homozygous
alternate. -/
def rowTiny : Row :=
  { locus := 0, filters := [], gene_name := some "G", consequence := "x",
    cadd_phred := 3, weight1 := 0, weight2 := 0, weight := 0, GT := [some 2] }

/-- A one-variant, one-sample matrix table at the stage where the burden
aggregation runs. -/
def mtTiny : MatrixTable :=
  { rows := [rowTiny], cols := [colD] }

/-! Helper lemmas. -/

lemma burdenPred_true_iff (r : Row) (i : Nat) :
    burdenPred r i == some true ↔ 0 < (nAltAt r i).getD 0 := by
  cases h : nAltAt r i <;> simp [burdenPred, h]

lemma weightedPred_true_iff (r : Row) (i : Nat) :
    weightedPred r i == some true ↔ 0 < r.weight2 * (((nAltAt r i).getD 0 : Nat) : ℚ) := by
  cases h : nAltAt r i <;> simp [weightedPred, h]

/-- The burden aggregator counts the group's rows whose call at sample `i`
has a positive alternate-allele count; missing calls contribute nothing. -/
lemma countWhere_burden (L : List Row) (i : Nat) :
    countWhere burdenPred L i = L.countP (fun r => decide (0 < (nAltAt r i).getD 0)) := by
  rw [countWhere, ← List.countP_eq_length_filter]
  refine List.countP_congr (fun r _ => ?_)
  simp only [decide_eq_true_eq, ← burdenPred_true_iff]

/-- The weighted-burden aggregator counts the group's rows whose weighted
alternate-allele count at sample `i` is positive. -/
lemma countWhere_weighted (L : List Row) (i : Nat) :
    countWhere weightedPred L i =
      L.countP (fun r => decide (0 < r.weight2 * (((nAltAt r i).getD 0 : Nat) : ℚ))) := by
  rw [countWhere, ← List.countP_eq_length_filter]
  refine List.countP_congr (fun r _ => ?_)
  simp only [decide_eq_true_eq, ← weightedPred_true_iff]

/-- The invariant the three QC filters establish on every retained row:
PASS filters, alternate-allele frequency strictly under 1%, and at least one
non-missing call carrying an alternate allele. -/
def qcPred (r : Row) : Prop :=
  r.filters = [] ∧ callStatsAF1 r < 1 / 100 ∧ ∃ n ∈ calledGT r, 0 < n

lemma qcPred_of_mem_qcChain {mt : MatrixTable} {r : Row} (h : r ∈ (qcChain mt).rows) :
    qcPred r := by
  simp only [qcChain, removeAllHomRef, removeCommon, removeNonPass, filter_rows,
    List.mem_filter] at h
  obtain ⟨⟨⟨-, h1⟩, h2⟩, h3⟩ := h
  refine ⟨List.length_eq_zero.mp (by simpa using h1), of_decide_eq_true h2, ?_⟩
  simp only [Bool.not_eq_true'] at h3
  simp [List.all_eq_true] at h3
  obtain ⟨n, hn, hne⟩ := h3
  exact ⟨n, hn, Nat.pos_of_ne_zero hne⟩

/-- Off the diagonal, the `hl.case` expression of `get_rel` is the
relatedness-graph lookup with the larger index first. -/
lemma getRelDet_eq_maxmin (rel : RelGraph) (s1 s2 : Nat) (h : s1 ≠ s2) :
    getRelDet rel s1 s2 =
      ((rel.lookup (max s1 s2)).bind (fun d => d.lookup (min s1 s2))).getD 0 := by
  rcases Nat.lt_or_ge s1 s2 with hlt | hge
  · rw [getRelDet, if_neg h, if_neg (by omega), max_eq_right (Nat.le_of_lt hlt),
      min_eq_left (Nat.le_of_lt hlt)]
  · have hlt : s2 < s1 := Nat.lt_of_le_of_ne hge (fun e => h e.symm)
    rw [getRelDet, if_neg h, if_pos hlt, max_eq_left (Nat.le_of_lt hlt),
      min_eq_right (Nat.le_of_lt hlt)]

/-- Closed form of the Beta(1, 25) density. -/
lemma dbeta_one_25 (x : ℚ) : dbeta x 1 25 = 25 * (1 - x) ^ 24 := by
  simp [dbeta, Nat.factorial]
  norm_num
  ring

/-- The Beta(1, 25) distribution function vanishes at 0. -/
lemma pbeta_zero : pbeta 0 1 25 = 0 := by
  simp [pbeta]
  apply Finset.sum_eq_zero
  intro j hj
  simp at hj
  rw [zero_pow (by omega)]
  ring

/-- C1 (amended): the per-gene statistic passed as `x` to
`hl.linear_regression_rows` is the number of the gene's variants at which the
sample carries at least one alternate allele (in the weighted cell, the
number at which the weighted alternate-allele count is positive) — a
`count_where`, not the sum of alternate-allele counts. -/
theorem burden_statistic_is_variant_count (mt : MatrixTable) :
    (∀ br ∈ burden_mt mt,
      br.n_variants = (List.range mt.cols.length).map (fun i =>
        (rowsOfGene mt br.gene_name).countP (fun r => decide (0 < (nAltAt r i).getD 0)))) ∧
    (∀ br ∈ weighted_mt mt,
      br.n_variants = (List.range mt.cols.length).map (fun i =>
        (rowsOfGene (annotateWeights mt) br.gene_name).countP
          (fun r => decide (0 < r.weight2 * (((nAltAt r i).getD 0 : Nat) : ℚ))))) := by
  constructor
  · intro br hbr
    simp only [burden_mt, List.mem_filter] at hbr
    obtain ⟨hbr, -⟩ := hbr
    simp only [groupRowsByGene, List.mem_map] at hbr
    obtain ⟨g, -, rfl⟩ := hbr
    exact List.map_congr_left (fun i _ => countWhere_burden _ i)
  · intro br hbr
    simp only [weighted_mt, List.mem_filter] at hbr
    obtain ⟨hbr, -⟩ := hbr
    simp only [groupRowsByGene, List.mem_map] at hbr
    obtain ⟨g, -, rfl⟩ := hbr
    exact List.map_congr_left (fun i _ => countWhere_weighted _ i)

theorem burden_statistic_witness :
    ((⟨some "G", [1]⟩ : BurdenRow).n_variants =
      (List.range mtTiny.cols.length).map (fun i =>
        (rowsOfGene mtTiny (some "G")).countP (fun r => decide (0 < (nAltAt r i).getD 0)))) ∧
    ((⟨some "G", [1]⟩ : BurdenRow).n_variants =
      (List.range mtTiny.cols.length).map (fun i =>
        (rowsOfGene (annotateWeights mtTiny) (some "G")).countP
          (fun r => decide (0 < r.weight2 * (((nAltAt r i).getD 0 : Nat) : ℚ))))) :=
  ⟨(burden_statistic_is_variant_count mtTiny).1 ⟨some "G", [1]⟩ (by decide),
   (burden_statistic_is_variant_count mtTiny).2 ⟨some "G", [1]⟩ (by
      simp [weighted_mt, groupRowsByGene, annotateWeights, mtTiny, rowTiny, geneKeys,
        rowsOfGene, countWhere, weightedPred, nAltAt, colD, List.range_succ])⟩

theorem burden_statistic_counterexample :
    ((burden_mt mtTiny).headD ⟨none, []⟩).n_variants.getD 0 0 ≠
      specBurdenSum mtTiny (some "G") 0 ∧
    (qcChain mtHomAlt).rows = [rowHomAlt] := by
  constructor
  · decide
  · simp [qcChain, removeAllHomRef, removeCommon, removeNonPass, filter_rows, mtHomAlt,
      callStatsAF1, calledGT, rowHomAlt]
    norm_num

/-- C2 (amended): the notebook translates exactly one class of external
failure — SKAT records with a nonzero fault code have their p-value replaced
by the substitute value 1 before plotting; records with fault 0 pass through
unchanged, and no other field is touched. -/
theorem skat_fault_is_translated (r : SkatResult) :
    (r.fault = 0 → (adjustSkatPValue r).p_value = r.p_value) ∧
    (r.fault ≠ 0 → (adjustSkatPValue r).p_value = 1) ∧
    (adjustSkatPValue r).fault = r.fault ∧ (adjustSkatPValue r).id = r.id := by
  refine ⟨fun h => by simp [adjustSkatPValue, h], fun h => by simp [adjustSkatPValue, h],
    rfl, rfl⟩

theorem skat_fault_witness :
    (adjustSkatPValue ⟨some "KLHL5", 3 / 10, 0⟩).p_value = 3 / 10 ∧
    (adjustSkatPValue ⟨some "SFT2D2", 3 / 10, 2⟩).p_value = 1 :=
  ⟨(skat_fault_is_translated ⟨some "KLHL5", 3 / 10, 0⟩).1 rfl,
   (skat_fault_is_translated ⟨some "SFT2D2", 3 / 10, 2⟩).2.1 (by decide)⟩

theorem skat_fault_counterexample :
    (adjustSkatPValue ⟨none, 1 / 2, 1⟩).p_value ≠ (⟨none, 1 / 2, 1⟩ : SkatResult).p_value := by
  simp [adjustSkatPValue]

/-- C3 (amended): `get_rel(s, s)` evaluates to exactly 0.5 plus the sampled
jitter term; the deterministic case expression alone is exactly 0.5 on the
diagonal. -/
theorem self_kinship_half_plus_jitter (rel : RelGraph) (s : Nat) (noise : ℚ) :
    getRel rel s s noise = 1 / 2 + noise ∧ getRelDet rel s s = 1 / 2 := by
  constructor <;> simp [getRel, getRelDet]

theorem self_kinship_counterexample :
    getRel [] 0 0 (1 / 100) ≠ 1 / 2 := by
  simp [getRel, getRelDet]

/-- C4 (amended): beyond threading identifiers, the notebook code computes
plotted values of its own — off the diagonal, the plotted `get_rel` value is
the library-owned relatedness entry (larger index first, defaulting to 0)
with the repository-added Gaussian jitter summed on. -/
theorem get_rel_is_lookup_plus_jitter (rel : RelGraph) (s1 s2 : Nat) (noise : ℚ)
    (h : s1 ≠ s2) :
    getRel rel s1 s2 noise =
      ((rel.lookup (max s1 s2)).bind (fun d => d.lookup (min s1 s2))).getD 0 + noise := by
  rw [getRel, getRelDet_eq_maxmin rel s1 s2 h]

theorem get_rel_jitter_witness :
    getRel relOne 1 0 (3 / 1000) =
      ((relOne.lookup (max 1 0)).bind (fun d => d.lookup (min 1 0))).getD 0 + 3 / 1000 :=
  get_rel_is_lookup_plus_jitter relOne 1 0 (3 / 1000) (by decide)

theorem get_rel_jitter_counterexample :
    getRel relOne 1 0 (3 / 1000) ≠ ((relOne.lookup 1).bind (fun d => d.lookup 0)).getD 0 := by
  simp [getRel, getRelDet, relOne, List.lookup]

/-- C5: the solutions guide gives, cell for cell and statement for
statement, the same library-call sequences with the same keyword parameters
as the teaching notebook, for both code-solved exercises of the rare-variant
notebook (including the weighted burden test cell). -/
theorem solutions_guide_duplicates_notebook :
    notebook02Exercise1Cells = solutionsExercise1Cells ∧
    notebook02Exercise2Cells = solutionsExercise2Cells :=
  ⟨rfl, rfl⟩

/-- C6: the declarative transformations are pure — `annotate_cols` leaves
rows (hence genotype entries) untouched, the row annotation leaves columns
and entries untouched, `filter_rows` leaves columns untouched and only ever
keeps a subsequence of the rows, the gene grouping produces one fresh entry
per sample column, and `key_by` leaves the records untouched. -/
theorem transformations_do_not_mutate :
    (∀ (mt : MatrixTable) (f : Col → Col), (annotate_cols mt f).rows = mt.rows) ∧
    (∀ (genes : List GeneInterval) (mt : MatrixTable),
      (annotateGeneNames genes mt).cols = mt.cols ∧
      (annotateGeneNames genes mt).rows.map (fun r => r.GT) = mt.rows.map (fun r => r.GT)) ∧
    (∀ (mt : MatrixTable) (p : Row → Bool),
      (filter_rows mt p).cols = mt.cols ∧ (filter_rows mt p).rows.Sublist mt.rows) ∧
    (∀ mt : MatrixTable,
      ((groupRowsByGene burdenPred mt).all
        (fun br => br.n_variants.length == mt.cols.length)) = true) ∧
    (∀ (t : KTable) (k : String), (key_by t k).recs = t.recs) := by
  refine ⟨fun mt f => rfl, fun genes mt => ⟨rfl, ?_⟩, fun mt p => ⟨rfl, List.filter_sublist _⟩,
    fun mt => ?_, fun t k => rfl⟩
  · simp [annotateGeneNames, List.map_map, Function.comp]
  · rw [List.all_eq_true]
    intro br hbr
    simp only [groupRowsByGene, List.mem_map] at hbr
    obtain ⟨g, -, rfl⟩ := hbr
    simp

/-- C7: the notebooks’ entire input boundary is five loads of pre-built
files, each through one of the library loaders `hl.read_matrix_table`,
`hl.import_table` or `hl.read_table`, and together they cover all four
kinds: genotype matrix table, sample-data table, gene-interval table and
phenotype table. -/
theorem input_boundary_is_four_file_kinds :
    (notebookInputOps.all (fun op =>
      op.loader == "hl.read_matrix_table" || op.loader == "hl.import_table" ||
        op.loader == "hl.read_table")) = true ∧
    (∀ k : InputKind, k ∈ notebookInputOps.map (fun op => op.kind)) := by
  refine ⟨by decide, fun k => ?_⟩
  cases k <;> decide

/-- C8: the weight annotated for `hl.skat` is the Beta(1, 25) probability
density evaluated at the variant-QC alternate-allele frequency — equal to
`25 * (1 - AF)^24` — and the density differs from the Beta(1, 25)
cumulative distribution function. -/
theorem skat_weight_is_beta_density :
    (∀ mt : MatrixTable, ∀ r ∈ (skat_mt mt).rows,
      r.weight = dbeta (callStatsAF1 r) 1 25 ∧ r.weight = 25 * (1 - callStatsAF1 r) ^ 24) ∧
    (∃ x : ℚ, dbeta x 1 25 ≠ pbeta x 1 25) := by
  constructor
  · intro mt r hr
    simp only [skat_mt, annotateSkatWeight, List.mem_map] at hr
    obtain ⟨r', -, rfl⟩ := hr
    exact ⟨rfl, dbeta_one_25 _⟩
  · refine ⟨0, ?_⟩
    rw [dbeta_one_25, pbeta_zero]
    norm_num

theorem skat_weight_witness :
    ({ rowTiny with weight := dbeta (callStatsAF1 rowTiny) 1 25 } : Row).weight =
        dbeta (callStatsAF1 { rowTiny with weight := dbeta (callStatsAF1 rowTiny) 1 25 }) 1 25 ∧
      ({ rowTiny with weight := dbeta (callStatsAF1 rowTiny) 1 25 } : Row).weight =
        25 * (1 - callStatsAF1 { rowTiny with weight := dbeta (callStatsAF1 rowTiny) 1 25 }) ^ 24 :=
  (skat_weight_is_beta_density.1 mtTiny _ (List.mem_singleton.mpr rfl))

/-- C9: every row retained by the three QC filters satisfies the invariant
`qcPred` — PASS filters, alternate-allele frequency strictly below 0.01, and
at least one non-homozygous-reference call — and the rows the burden
grouping and the SKAT weight annotation subsequently consume all satisfy it
too. -/
theorem qc_invariant_holds_downstream (genes : List GeneInterval) (mt : MatrixTable) :
    (∀ r ∈ (qcChain mt).rows, qcPred r) ∧
    (∀ r ∈ (rareVariantPipeline genes mt).rows, qcPred r) ∧
    (∀ br ∈ burden_mt (rareVariantPipeline genes mt),
      ∀ r ∈ rowsOfGene (rareVariantPipeline genes mt) br.gene_name, qcPred r) ∧
    (∀ r ∈ (skat_mt (annotateWeights (rareVariantPipeline genes mt))).rows, qcPred r) := by
  have hpipe : ∀ r ∈ (rareVariantPipeline genes mt).rows, qcPred r := by
    intro r hr
    simp only [rareVariantPipeline, annotateGeneNames, List.mem_map] at hr
    obtain ⟨r', hr', rfl⟩ := hr
    have h2 : qcPred r' := qcPred_of_mem_qcChain hr'
    exact h2
  refine ⟨fun r hr => qcPred_of_mem_qcChain hr, hpipe, ?_, ?_⟩
  · intro br _ r hr
    exact hpipe r (List.mem_of_mem_filter hr)
  · intro r hr
    simp only [skat_mt, annotateSkatWeight, annotateWeights, List.mem_map] at hr
    obtain ⟨r', ⟨r0, hr0, rfl⟩, rfl⟩ := hr
    have h2 : qcPred r0 := hpipe r0 hr0
    exact h2

theorem qc_invariant_witness : qcPred rowHomAlt :=
  (qc_invariant_holds_downstream genesOne mtHomAlt).1 rowHomAlt (by
    have : (qcChain mtHomAlt).rows = [rowHomAlt] := by
      simp [qcChain, removeAllHomRef, removeCommon, removeNonPass, filter_rows, mtHomAlt,
        callStatsAF1, calledGT, rowHomAlt]
      norm_num
    rw [this]
    exact List.mem_singleton.mpr rfl)

/-- C10: off the diagonal the deterministic part of `get_rel` is the
relatedness-graph entry indexed larger-first with default 0, and is
therefore symmetric in its two arguments. -/
theorem get_rel_deterministic_symmetric (rel : RelGraph) (s1 s2 : Nat) (h : s1 ≠ s2) :
    getRelDet rel s1 s2 =
      ((rel.lookup (max s1 s2)).bind (fun d => d.lookup (min s1 s2))).getD 0 ∧
    getRelDet rel s1 s2 = getRelDet rel s2 s1 := by
  refine ⟨getRelDet_eq_maxmin rel s1 s2 h, ?_⟩
  rw [getRelDet_eq_maxmin rel s1 s2 h, getRelDet_eq_maxmin rel s2 s1 (Ne.symm h),
    max_comm s2 s1, min_comm s2 s1]

theorem get_rel_symmetric_witness :
    (getRelDet relOne 0 1 =
      ((relOne.lookup (max 0 1)).bind (fun d => d.lookup (min 0 1))).getD 0 ∧
    getRelDet relOne 0 1 = getRelDet relOne 1 0) :=
  get_rel_deterministic_symmetric relOne 0 1 (by decide)

end IBGHail
